import Mathlib

/-!
Verification of the spreadsheet financial-ratio calculator
(`ratio_calculator.py`).

Shallow embedding conventions:

* Spreadsheet cells are an inductive type; a worksheet grid is a list of rows
  of cells, addressed 1-based like openpyxl.
* Python dictionaries are association lists with first-match lookup and
  overwrite-in-place assignment, matching insertion-ordered dict semantics.
* Python floats are embedded as exact rationals extended with the special
  values inf, -inf and nan.  Arithmetic on finite values is exact: IEEE-754
  rounding and overflow are outside the embedding.  The special values follow
  IEEE-754 data flow; the two signed zeros are collapsed to the single
  rational 0 (the program only ever compares a float with 0 and feeds floats
  back into arithmetic, where -0.0 and 0.0 behave identically).
* `float(str)` coercion is modelled for ASCII decimal literals with optional
  sign, fraction and exponent, and for the special spellings inf / infinity /
  nan.  Digit-group underscores and non-ASCII digits accepted by Python are
  not modelled.
-/

namespace RatioCalc

/-- Python dict lookup: value of the first pair whose key matches. -/
def lookupD {κ β : Type} [DecidableEq κ] : List (κ × β) → κ → Option β
  | [], _ => none
  | (k, v) :: rest, key => if k = key then some v else lookupD rest key

/-- Python dict assignment: overwrite in place if the key exists, else append. -/
def insertD {κ β : Type} [DecidableEq κ] : List (κ × β) → κ → β → List (κ × β)
  | [], key, val => [(key, val)]
  | (k, v) :: rest, key, val =>
      if k = key then (k, val) :: rest else (k, v) :: insertD rest key val

/-- The keys of an association list, in order. -/
def keysD {κ β : Type} (l : List (κ × β)) : List κ := l.map Prod.fst

/-- A loop that repeatedly assigns `dict[k] = v` for each produced pair,
starting from the empty dict.  Both table-extraction loops of the program
have this shape. -/
def dictFold {α κ β : Type} [DecidableEq κ] (f : α → Option (κ × β)) (l : List α) :
    List (κ × β) :=
  l.foldl (fun acc a => match f a with | some kv => insertD acc kv.1 kv.2 | none => acc) []

/-- A Python float: an exact rational, or one of the IEEE special values. -/
inductive PyFloat : Type
  | finite (q : ℚ)
  | inf
  | neginf
  | nan
deriving DecidableEq, Repr

/-- IEEE negation. -/
def pfNeg : PyFloat → PyFloat
  | .finite q => .finite (-q)
  | .inf => .neginf
  | .neginf => .inf
  | .nan => .nan

/-- IEEE addition (exact on finite operands). -/
def pfAdd : PyFloat → PyFloat → PyFloat
  | .nan, _ => .nan
  | _, .nan => .nan
  | .finite a, .finite b => .finite (a + b)
  | .finite _, .inf => .inf
  | .finite _, .neginf => .neginf
  | .inf, .finite _ => .inf
  | .inf, .inf => .inf
  | .inf, .neginf => .nan
  | .neginf, .finite _ => .neginf
  | .neginf, .inf => .nan
  | .neginf, .neginf => .neginf

/-- IEEE subtraction: adding the negation, exactly as IEEE defines it. -/
def pfSub (a b : PyFloat) : PyFloat := pfAdd a (pfNeg b)

/-- IEEE division (exact on finite operands).  The finite-by-zero cases would
raise `ZeroDivisionError` in Python; every division in the program sits
behind a zero guard, so those cases are unreachable and mapped to `nan`. -/
def pfDiv : PyFloat → PyFloat → PyFloat
  | .nan, _ => .nan
  | _, .nan => .nan
  | .finite a, .finite b => .finite (a / b)
  | .finite _, .inf => .finite 0
  | .finite _, .neginf => .finite 0
  | .inf, .finite b => if b < 0 then .neginf else .inf
  | .neginf, .finite b => if b < 0 then .inf else .neginf
  | .inf, .inf => .nan
  | .inf, .neginf => .nan
  | .neginf, .inf => .nan
  | .neginf, .neginf => .nan

/-- Python `x == 0` on a float: nan and the infinities compare unequal. -/
def pfEqZero : PyFloat → Bool
  | .finite q => q = 0
  | _ => false

/-- Is the first character list a contiguous run at the front of the second?
Used to build Python substring containment. -/
def prefixAt : List Char → List Char → Bool
  | [], _ => true
  | _ :: _, [] => false
  | a :: as, b :: bs => a = b && prefixAt as bs

/-- Python `needle in hay` on strings: substring containment, with the empty
needle contained in everything. -/
def strContains : List Char → List Char → Bool
  | n, [] => n.isEmpty
  | n, h :: hs => prefixAt n (h :: hs) || strContains n hs

/-- Splitting on whitespace runs, dropping empty pieces: Python `str.split()`.
The accumulator holds the current word reversed. -/
def wordsAux : List Char → List Char → List String
  | [], acc => if acc = [] then [] else [String.mk acc.reverse]
  | c :: cs, acc =>
      if c.isWhitespace then
        if acc = [] then wordsAux cs [] else String.mk acc.reverse :: wordsAux cs []
      else wordsAux cs (c :: acc)

/-- Python `str.split()` with no separator argument. -/
def pyWords (s : String) : List String := wordsAux s.data []

/-- Python `str.lower()` (ASCII model). -/
def pyLower (s : String) : String := String.mk (s.data.map Char.toLower)

/-- `_normalize_label`: trim, lowercase, collapse internal whitespace.
`" ".join(str(label).strip().lower().split())` — the strip is subsumed by
the separator-free split. -/
def _normalize_label (s : String) : String :=
  String.intercalate " " (pyWords (pyLower s))

/-- Value of a digit run, allowing the empty run (value 0); any non-digit
fails. -/
def digitsValE (cs : List Char) : Option Nat :=
  cs.foldl
    (fun acc c => match acc with
      | none => none
      | some n => if c.isDigit then some (n * 10 + (c.toNat - 48)) else none)
    (some 0)

/-- Split at the first dot, if any. -/
def splitDot : List Char → List Char × Option (List Char)
  | [] => ([], none)
  | c :: cs =>
      if c = '.' then ([], some cs)
      else
        let p := splitDot cs
        (c :: p.1, p.2)

/-- Split at the first exponent marker, if any. -/
def splitExp : List Char → List Char × Option (List Char)
  | [] => ([], none)
  | c :: cs =>
      if c = 'e' ∨ c = 'E' then ([], some cs)
      else
        let p := splitExp cs
        (c :: p.1, p.2)

/-- Consume one optional leading sign; `true` means negative. -/
def signSplit : List Char → Bool × List Char
  | '+' :: cs => (false, cs)
  | '-' :: cs => (true, cs)
  | cs => (false, cs)

/-- Value of an exponent part: optional sign then a nonempty digit run. -/
def expVal (cs : List Char) : Option Int :=
  let p := signSplit cs
  if p.2 = [] then none
  else (digitsValE p.2).map (fun n => if p.1 then -(n : Int) else (n : Int))

/-- Value of a mantissa: digits, optionally with one dot, at least one digit
overall. -/
def mantissaVal (cs : List Char) : Option ℚ :=
  match splitDot cs with
  | (ip, none) =>
      if ip = [] then none else (digitsValE ip).map (fun n => (n : ℚ))
  | (ip, some fp) =>
      if ip = [] ∧ fp = [] then none
      else
        match digitsValE ip, digitsValE fp with
        | some n, some f => some ((n : ℚ) + (f : ℚ) / (10 : ℚ) ^ fp.length)
        | _, _ => none

/-- Value of an unsigned numeric literal: mantissa with optional exponent. -/
def numberVal (cs : List Char) : Option ℚ :=
  match splitExp cs with
  | (m, none) => mantissaVal m
  | (m, some e) =>
      match mantissaVal m, expVal e with
      | some q, some k => some (q * (10 : ℚ) ^ k)
      | _, _ => none

/-- Python `float(str)`: strip whitespace, optional sign, then either one of
the special spellings inf / infinity / nan (case-insensitive) or a decimal
literal.  `none` models the `ValueError` the caller catches. -/
def pyFloatOfString (s : String) : Option PyFloat :=
  let t := ((s.data.dropWhile Char.isWhitespace).reverse.dropWhile Char.isWhitespace).reverse
  let p := signSplit t
  let low := p.2.map Char.toLower
  if low = "inf".data ∨ low = "infinity".data then
    some (if p.1 then PyFloat.neginf else PyFloat.inf)
  else if low = "nan".data then some PyFloat.nan
  else (numberVal p.2).map (fun q => PyFloat.finite (if p.1 then -q else q))

/-- Python `int()` on a finite float: truncation toward zero. -/
def pyInt (q : ℚ) : Int := q.num.tdiv (q.den : Int)

/-- An openpyxl cell value: `None`, a string, a (finite) number, or a bool.
Numbers read from a workbook are finite; non-finite floats can only enter the
tables through string cells and `float()`. -/
inductive Cell : Type
  | empty
  | str (s : String)
  | num (q : ℚ)
  | boolean (b : Bool)
deriving DecidableEq, Repr

/-- A worksheet: rows of cells.  Cells outside the stored rectangle are
`empty`, as in openpyxl. -/
abbrev Grid : Type := List (List Cell)

/-- `ws.cell(row=r, column=c).value`, 1-based. -/
def cellAt (g : Grid) (r c : Nat) : Cell :=
  (((g.get? (r - 1)).getD []).get? (c - 1)).getD Cell.empty

/-- Python `value in (None, "")`.  Numbers and bools compare unequal to both. -/
def isNoneOrEmpty : Cell → Bool
  | Cell.empty => true
  | Cell.str s => s == ""
  | _ => false

/-- Python `str()` of a cell value, used on label cells.  Strings pass through
unchanged; no claim exercises the rendering of non-string labels, for which
Python would produce its own decimal rendering. -/
def cellStr : Cell → String
  | Cell.empty => "None"
  | Cell.str s => s
  | Cell.num q => toString q
  | Cell.boolean b => if b then "True" else "False"

/-- `float(value)` with `TypeError` / `ValueError` mapped to `none`. -/
def tryFloat : Cell → Option PyFloat
  | Cell.empty => none
  | Cell.str s => pyFloatOfString s
  | Cell.num q => some (PyFloat.finite q)
  | Cell.boolean b => some (PyFloat.finite (if b then 1 else 0))

/-- The header check `isinstance(year_val, (int, float))` followed by
`int(year_val)`.  Bools are Python ints. -/
def cellYear : Cell → Option Int
  | Cell.num q => some (pyInt q)
  | Cell.boolean b => some (if b then 1 else 0)
  | _ => none

/-- The static layout descriptor of one source sheet. -/
structure SheetConfig : Type where
  name : String
  header_row : Nat
  label_col : Nat
  data_start_row : Nat
  data_end_row : Nat
  year_cols : List Nat
deriving DecidableEq, Repr

def incomeConfig : SheetConfig :=
  { name := "INCOME_STATEMENT", header_row := 15, label_col := 2,
    data_start_row := 16, data_end_row := 42, year_cols := [3, 4, 5] }

def balanceConfig : SheetConfig :=
  { name := "BALANCE_SHEET", header_row := 14, label_col := 2,
    data_start_row := 17, data_end_row := 55, year_cols := [3, 4] }

def equityConfig : SheetConfig :=
  { name := "STOCKHOLDERS_EQUITY", header_row := 17, label_col := 2,
    data_start_row := 18, data_end_row := 62, year_cols := [3, 4, 5, 6, 7, 8, 9, 10] }

def cashFlowConfig : SheetConfig :=
  { name := "CASH_FLOW", header_row := 15, label_col := 2,
    data_start_row := 17, data_end_row := 68, year_cols := [3, 4, 5] }

/-- `SHEET_CONFIGS`, in dict (insertion) order. -/
def SHEET_CONFIGS : List (String × SheetConfig) :=
  [("INCOME_STATEMENT", incomeConfig), ("BALANCE_SHEET", balanceConfig),
   ("STOCKHOLDERS_EQUITY", equityConfig), ("CASH_FLOW", cashFlowConfig)]

/-- `range(config.data_start_row, config.data_end_row + 1)`. -/
def dataRows (c : SheetConfig) : List Nat :=
  List.range' c.data_start_row (c.data_end_row + 1 - c.data_start_row)

/-- The `years` list of `_read_table`: per year column, the header value if it
is numeric, else `None`. -/
def readYears (g : Grid) (c : SheetConfig) : List (Option Int) :=
  c.year_cols.map (fun col => cellYear (cellAt g c.header_row col))

/-- A label row mapping: fiscal year to float value. -/
abbrev YearMap : Type := List (Int × PyFloat)

/-- A table: normalized label to year map, in insertion order. -/
abbrev Table : Type := List (String × YearMap)

/-- The `row_values` dict of `_read_table`: per (column, year) pair, skip a
skipped column, skip a blank cell, skip a failed coercion, else assign. -/
def rowValues (g : Grid) (c : SheetConfig) (row : Nat) : YearMap :=
  dictFold
    (fun p => match p.2 with
      | none => none
      | some year =>
          let value := cellAt g row p.1
          if isNoneOrEmpty value then none
          else (tryFloat value).map (fun x => (year, x)))
    (c.year_cols.zip (readYears g c))

/-- `_read_table`: skip blank-label rows, skip rows with no valid values,
else assign the row values under the normalized label. -/
def _read_table (g : Grid) (c : SheetConfig) : Table :=
  dictFold
    (fun row =>
      let label := cellAt g row c.label_col
      if isNoneOrEmpty label then none
      else
        let vals := rowValues g c row
        if vals = [] then none
        else some (_normalize_label (cellStr label), vals))
    (dataRows c)

/-- `key in table and year in table[key]`, returning the hit. -/
def tableLookup (t : Table) (key : String) (year : Int) : Option PyFloat :=
  match lookupD t key with
  | some values => lookupD values year
  | none => none

/-- First loop of `_find_value`: first variant, in order, whose normalized
form is an exact table key with the year present. -/
def exactPhase (table : Table) (label_variants : List String) (year : Int) :
    Option PyFloat :=
  label_variants.findSome? (fun variant =>
    tableLookup table (_normalize_label variant) year)

/-- Second loop of `_find_value`: first table key, in insertion order,
containing some normalized variant as a substring with the year present. -/
def substrPhase (table : Table) (label_variants : List String) (year : Int) :
    Option PyFloat :=
  table.findSome? (fun kv =>
    label_variants.findSome? (fun variant =>
      if strContains (_normalize_label variant).data kv.1.data then lookupD kv.2 year
      else none))

/-- `_find_value`: exact phase, then substring fallback, else `None`. -/
def _find_value (table : Table) (label_variants : List String) (year : Int) :
    Option PyFloat :=
  (exactPhase table label_variants year).or (substrPhase table label_variants year)

/-- `_average`: arithmetic mean, `None` if either input is `None`. -/
def _average (current prior : Option PyFloat) : Option PyFloat :=
  match current, prior with
  | some c, some p => some (pfDiv (pfAdd c p) (PyFloat.finite 2))
  | _, _ => none

/-- `_safe_divide`: `None` if the numerator is `None` or the denominator is
`None` or compares equal to 0; otherwise the float quotient. -/
def _safe_divide (numerator denominator : Option PyFloat) : Option PyFloat :=
  match numerator, denominator with
  | none, _ => none
  | _, none => none
  | some n, some d => if pfEqZero d then none else some (pfDiv n d)

/-! The per-year local variables of the `build_ratios` loop body, each as a
definition over the extracted income and balance tables. -/

def revenueYr (income : Table) (year : Int) : Option PyFloat :=
  _find_value income ["Revenue"] year

def costOfRevenueYr (income : Table) (year : Int) : Option PyFloat :=
  _find_value income ["Cost of revenue"] year

def netIncomeYr (income : Table) (year : Int) : Option PyFloat :=
  _find_value income ["Net income (loss)"] year

def netIncomeCommonYr (income : Table) (year : Int) : Option PyFloat :=
  _find_value income ["Net income (loss) attributable to common stockholders"] year

def avgArYr (balance : Table) (year : Int) : Option PyFloat :=
  _average (_find_value balance ["Accounts receivable, net"] year)
    (_find_value balance ["Accounts receivable, net"] (year - 1))

def avgInventoryYr (balance : Table) (year : Int) : Option PyFloat :=
  _average (_find_value balance ["Inventory"] year)
    (_find_value balance ["Inventory"] (year - 1))

def avgApYr (balance : Table) (year : Int) : Option PyFloat :=
  _average (_find_value balance ["Accounts payable"] year)
    (_find_value balance ["Accounts payable"] (year - 1))

def avgPpeYr (balance : Table) (year : Int) : Option PyFloat :=
  _average (_find_value balance ["Property and equipment, net"] year)
    (_find_value balance ["Property and equipment, net"] (year - 1))

def avgAssetsYr (balance : Table) (year : Int) : Option PyFloat :=
  _average (_find_value balance ["Total assets"] year)
    (_find_value balance ["Total assets"] (year - 1))

def avgEquityYr (balance : Table) (year : Int) : Option PyFloat :=
  _average (_find_value balance ["Total equity"] year)
    (_find_value balance ["Total equity"] (year - 1))

def avgCommonEquityYr (balance : Table) (year : Int) : Option PyFloat :=
  _average (_find_value balance ["Total Palantir\x27s stockholders\x27 equity"] year)
    (_find_value balance ["Total Palantir\x27s stockholders\x27 equity"] (year - 1))

def arTurnoverYr (income balance : Table) (year : Int) : Option PyFloat :=
  _safe_divide (revenueYr income year) (avgArYr balance year)

def inventoryTurnoverYr (income balance : Table) (year : Int) : Option PyFloat :=
  _safe_divide (costOfRevenueYr income year) (avgInventoryYr balance year)

def apTurnoverYr (income balance : Table) (year : Int) : Option PyFloat :=
  _safe_divide (costOfRevenueYr income year) (avgApYr balance year)

def ppeTurnoverYr (income balance : Table) (year : Int) : Option PyFloat :=
  _safe_divide (revenueYr income year) (avgPpeYr balance year)

def assetTurnoverYr (income balance : Table) (year : Int) : Option PyFloat :=
  _safe_divide (revenueYr income year) (avgAssetsYr balance year)

def roaYr (income balance : Table) (year : Int) : Option PyFloat :=
  _safe_divide (netIncomeYr income year) (avgAssetsYr balance year)

def dsoYr (income balance : Table) (year : Int) : Option PyFloat :=
  _safe_divide (some (PyFloat.finite 365)) (arTurnoverYr income balance year)

def dioYr (income balance : Table) (year : Int) : Option PyFloat :=
  _safe_divide (some (PyFloat.finite 365)) (inventoryTurnoverYr income balance year)

def dpoYr (income balance : Table) (year : Int) : Option PyFloat :=
  _safe_divide (some (PyFloat.finite 365)) (apTurnoverYr income balance year)

/-- The cash-conversion-cycle combination: `ccc = None; if dso is not None
and dpo is not None: ccc = dso - dpo if dio is None else dso + dio - dpo`. -/
def cccOf (dso dio dpo : Option PyFloat) : Option PyFloat :=
  match dso, dpo with
  | some a, some c =>
      some (match dio with
        | none => pfSub a c
        | some b => pfSub (pfAdd a b) c)
  | _, _ => none

def cccYr (income balance : Table) (year : Int) : Option PyFloat :=
  cccOf (dsoYr income balance year) (dioYr income balance year)
    (dpoYr income balance year)

def roeYr (income balance : Table) (year : Int) : Option PyFloat :=
  _safe_divide (netIncomeYr income year) (avgEquityYr balance year)

def roceYr (income balance : Table) (year : Int) : Option PyFloat :=
  _safe_divide (netIncomeCommonYr income year) (avgCommonEquityYr balance year)

def npmYr (income : Table) (_balance : Table) (year : Int) : Option PyFloat :=
  _safe_divide (netIncomeYr income year) (revenueYr income year)

def leverageYr (_income : Table) (balance : Table) (year : Int) : Option PyFloat :=
  _safe_divide (avgAssetsYr balance year) (avgEquityYr balance year)

/-- The keys of the `ratios` dict, in the literal (insertion) order the
writer iterates. -/
def ratioNames : List String :=
  ["A/R Turnover", "Inventory Turnover", "A/P Turnover", "PPE Turnover",
   "Asset Turnover", "Return on Assets", "Cash Conversion Cycle",
   "Return on Equity", "Return on Common Equity", "Net Profit Margin",
   "Leverage"]

/-- `ratios[name][year]` as a function: the loop body stores exactly one
value per ratio name and year of the run. -/
def ratioValue (income balance : Table) (year : Int) (name : String) :
    Option PyFloat :=
  if name = "A/R Turnover" then arTurnoverYr income balance year
  else if name = "Inventory Turnover" then inventoryTurnoverYr income balance year
  else if name = "A/P Turnover" then apTurnoverYr income balance year
  else if name = "PPE Turnover" then ppeTurnoverYr income balance year
  else if name = "Asset Turnover" then assetTurnoverYr income balance year
  else if name = "Return on Assets" then roaYr income balance year
  else if name = "Cash Conversion Cycle" then cccYr income balance year
  else if name = "Return on Equity" then roeYr income balance year
  else if name = "Return on Common Equity" then roceYr income balance year
  else if name = "Net Profit Margin" then npmYr income balance year
  else if name = "Leverage" then leverageYr income balance year
  else none

/-- `sorted(set(ik) & set(bk))`: the ascending sorted list of the distinct
years common to both key lists. -/
def sortedCommonYears (ik bk : List Int) : List Int :=
  List.insertionSort (· ≤ ·) ((ik.filter (fun y => y ∈ bk)).dedup)

/-- `years` in `build_ratios`: intersect the year keys of the first
row-series of each table; `none` models the `StopIteration` that
`next(iter(...))` raises on an empty table. -/
def buildYears (income balance : Table) : Option (List Int) :=
  match income, balance with
  | iv :: _, bv :: _ => some (sortedCommonYears (keysD iv.2) (keysD bv.2))
  | _, _ => none

/-- A sheet of the resulting workbook: either an untouched source sheet, or
the freshly created RATIOS sheet (header years plus one row of optional
values per ratio name). -/
inductive OutSheet : Type
  | src (g : Grid)
  | ratios (years : List Int) (rows : List (String × List (Option PyFloat)))
deriving DecidableEq

/-- The ways `build_ratios` can raise. -/
inductive BuildError : Type
  | missingSheet (name : String)
  | stopIteration
deriving DecidableEq, Repr

/-- The RATIOS sheet the writer produces. -/
def ratiosSheetOf (income balance : Table) (years : List Int) : OutSheet :=
  OutSheet.ratios years
    (ratioNames.map (fun nm => (nm, years.map (fun y => ratioValue income balance y nm))))

/-- `build_ratios` on an in-memory workbook: read the four named sheets
(the first absent one is the `KeyError`), extract the tables, derive the
year set, delete any existing RATIOS sheet and append the fresh one.
Loading and saving the file are outside the embedding. -/
def build_ratios (wb : List (String × Grid)) :
    Except BuildError (List (String × OutSheet)) :=
  match lookupD wb "INCOME_STATEMENT" with
  | none => Except.error (BuildError.missingSheet "INCOME_STATEMENT")
  | some gInc =>
  match lookupD wb "BALANCE_SHEET" with
  | none => Except.error (BuildError.missingSheet "BALANCE_SHEET")
  | some gBal =>
  match lookupD wb "STOCKHOLDERS_EQUITY" with
  | none => Except.error (BuildError.missingSheet "STOCKHOLDERS_EQUITY")
  | some _ =>
  match lookupD wb "CASH_FLOW" with
  | none => Except.error (BuildError.missingSheet "CASH_FLOW")
  | some _ =>
  let income := _read_table gInc incomeConfig
  let balance := _read_table gBal balanceConfig
  match buildYears income balance with
  | none => Except.error BuildError.stopIteration
  | some years =>
      Except.ok
        (((wb.filter (fun p => p.1 ≠ "RATIOS")).map (fun p => (p.1, OutSheet.src p.2)))
          ++ [("RATIOS", ratiosSheetOf income balance years)])

/-- The sheets kept by the writer: everything except any RATIOS sheet. -/
def keptSheets (wb : List (String × Grid)) : List (String × OutSheet) :=
  (wb.filter (fun p => p.1 ≠ "RATIOS")).map (fun p => (p.1, OutSheet.src p.2))

/-! Concrete example data used by the verification witnesses. -/

def smallConfig : SheetConfig :=
  { name := "T", header_row := 1, label_col := 1,
    data_start_row := 2, data_end_row := 3, year_cols := [2] }

def collideGrid : Grid :=
  [[Cell.empty, Cell.num 2020],
   [Cell.str "a", Cell.empty],
   [Cell.str "a", Cell.num 5]]

def blankCellGrid : Grid :=
  [[Cell.empty, Cell.num 2020],
   [Cell.str "a", Cell.empty]]

def infGrid : Grid :=
  [[Cell.empty, Cell.num 2020],
   [Cell.str "a", Cell.str "inf"]]

def plainGrid : Grid :=
  [[Cell.empty, Cell.num 2020],
   [Cell.str "a", Cell.num 5]]

def wsLabelGrid : Grid :=
  [[Cell.empty, Cell.num 2020],
   [Cell.str " ", Cell.num 7]]

def exTable : Table :=
  [("revenue", [(2020, PyFloat.finite 100)]),
   ("total assets x", [(2020, PyFloat.finite 50)])]

/-- An income sheet for the full-pipeline witnesses: header in row 15,
a Revenue row in row 16 with values for 2020 and 2021 only. -/
def wgIncome : Grid :=
  List.replicate 14 [] ++
  [[Cell.empty, Cell.empty, Cell.num 2020, Cell.num 2021, Cell.num 2022],
   [Cell.empty, Cell.str "Revenue", Cell.num 100, Cell.num 120, Cell.empty]]

/-- A balance sheet for the full-pipeline witnesses: header in row 14,
a Total assets row in row 17. -/
def wgBalance : Grid :=
  List.replicate 13 [] ++
  [[Cell.empty, Cell.empty, Cell.num 2020, Cell.num 2021],
   [], [],
   [Cell.empty, Cell.str "Total assets", Cell.num 50, Cell.num 55]]

def wbOk : List (String × Grid) :=
  [("INCOME_STATEMENT", wgIncome), ("BALANCE_SHEET", wgBalance),
   ("STOCKHOLDERS_EQUITY", []), ("CASH_FLOW", [])]

/-- The same workbook with a stale RATIOS sheet appended, as left behind by
an earlier run. -/
def wbStale : List (String × Grid) :=
  wbOk ++ [("RATIOS", [[Cell.str "Ratio", Cell.num 1999]])]

/-- Four named sheets present, but every grid empty. -/
def wbEmpty4 : List (String × Grid) :=
  [("INCOME_STATEMENT", []), ("BALANCE_SHEET", []),
   ("STOCKHOLDERS_EQUITY", []), ("CASH_FLOW", [])]

/-- The successful result of a run, for stating witnesses. -/
def outOfWb (wb : List (String × Grid)) : List (String × OutSheet) :=
  ((build_ratios wb).toOption).getD []

/-- The contribution of one data row to the extracted table, at a fixed key:
skipped rows and other keys contribute nothing. -/
def rowHit (g : Grid) (c : SheetConfig) (key : String) (row : Nat) : Option YearMap :=
  let label := cellAt g row c.label_col
  if isNoneOrEmpty label then none
  else
    let vals := rowValues g c row
    if vals = [] then none
    else if _normalize_label (cellStr label) = key then some vals else none

/-- The contribution of one (column, header-year) pair to a row map, at a
fixed year: skipped columns, blank cells and failed coercions contribute
nothing. -/
def colHit (g : Grid) (row : Nat) (year : Int) (p : Nat × Option Int) : Option PyFloat :=
  match p.2 with
  | none => none
  | some y =>
      let value := cellAt g row p.1
      if isNoneOrEmpty value then none
      else
        match tryFloat value with
        | some x => if y = year then some x else none
        | none => none

/-! ### Association-list and fold lemmas -/

theorem lookupD_insertD {κ β : Type} [DecidableEq κ] (t : List (κ × β)) (k : κ) (v : β)
    (key : κ) :
    lookupD (insertD t k v) key = if k = key then some v else lookupD t key := by
  induction t with
  | nil =>
      by_cases hk : k = key <;> simp [insertD, lookupD, hk]
  | cons p rest ih =>
      obtain ⟨k', v'⟩ := p
      by_cases h : k' = k
      · subst h
        by_cases hk : k' = key <;> simp [insertD, lookupD, hk]
      · by_cases h1 : k' = key
        · subst h1
          have hk : ¬ k = k' := fun hkk => h hkk.symm
          simp [insertD, lookupD, h, hk]
        · simp [insertD, lookupD, h, h1, ih]

theorem findSome?_eq_of_unique {α β : Type} (l : List α) (f : α → Option β) (r : α)
    (hr : r ∈ l) (hu : ∀ a ∈ l, a ≠ r → f a = none) : l.findSome? f = f r := by
  induction l with
  | nil => cases hr
  | cons a l ih =>
      rw [List.findSome?_cons]
      by_cases ha : a = r
      · subst ha
        cases hfa : f a with
        | some b => rfl
        | none =>
            have : l.findSome? f = none := by
              rw [List.findSome?_eq_none_iff]
              intro x hx
              by_cases hxa : x = a
              · rw [hxa]; exact hfa
              · exact hu x (List.mem_cons_of_mem _ hx) hxa
            rw [this]
      · have hfa : f a = none := hu a (List.mem_cons_self a l) ha
        rw [hfa]
        have hr' : r ∈ l := by
          rcases List.mem_cons.mp hr with h | h
          · exact absurd h.symm ha
          · exact h
        exact ih hr' (fun x hx => hu x (List.mem_cons_of_mem _ hx))

theorem findSome?_eq_some_of_forall {α β : Type} (l : List α) (f : α → Option β) (x : β)
    (hall : ∀ a ∈ l, f a = none ∨ f a = some x) (hex : ∃ a ∈ l, f a = some x) :
    l.findSome? f = some x := by
  induction l with
  | nil => rcases hex with ⟨a, ha, _⟩; cases ha
  | cons a l ih =>
      rw [List.findSome?_cons]
      cases hfa : f a with
      | some b =>
          rcases hall a (List.mem_cons_self a l) with h | h
          · rw [hfa] at h; cases h
          · rw [hfa] at h; exact h ▸ rfl
      | none =>
          apply ih (fun y hy => hall y (List.mem_cons_of_mem _ hy))
          rcases hex with ⟨y, hy, hfy⟩
          rcases List.mem_cons.mp hy with h | h
          · subst h; rw [hfa] at hfy; cases hfy
          · exact ⟨y, h, hfy⟩

theorem lookupD_foldl_insert {α κ β : Type} [DecidableEq κ] (f : α → Option (κ × β))
    (key : κ) (l : List α) (acc : List (κ × β)) :
    lookupD
        (l.foldl (fun acc a => match f a with | some kv => insertD acc kv.1 kv.2 | none => acc)
          acc)
        key
      = (l.reverse.findSome? (fun a =>
            match f a with
            | some kv => if kv.1 = key then some kv.2 else none
            | none => none)).or
          (lookupD acc key) := by
  induction l generalizing acc with
  | nil => simp
  | cons a l ih =>
      rw [List.foldl_cons, ih, List.reverse_cons, List.findSome?_append, Option.or_assoc]
      congr 1
      rw [List.findSome?_cons, List.findSome?_nil]
      cases hfa : f a with
      | none => simp
      | some kv =>
          rw [lookupD_insertD]
          by_cases hk : kv.1 = key <;> simp [hk]

theorem lookupD_dictFold {α κ β : Type} [DecidableEq κ] (f : α → Option (κ × β))
    (l : List α) (key : κ) :
    lookupD (dictFold f l) key
      = l.reverse.findSome? (fun a =>
          match f a with
          | some kv => if kv.1 = key then some kv.2 else none
          | none => none) := by
  rw [dictFold, lookupD_foldl_insert]
  simp [lookupD]

theorem dictFold_eq_nil {α κ β : Type} [DecidableEq κ] (f : α → Option (κ × β))
    (l : List α) (h : ∀ a ∈ l, f a = none) : dictFold f l = [] := by
  rw [dictFold]
  induction l with
  | nil => rfl
  | cons a l ih =>
      rw [List.foldl_cons, h a (List.mem_cons_self a l)]
      exact ih (fun x hx => h x (List.mem_cons_of_mem _ hx))

/-! ### Characterization of table extraction -/

theorem rowValues_lookup (g : Grid) (c : SheetConfig) (row : Nat) (year : Int) :
    lookupD (rowValues g c row) year
      = (c.year_cols.zip (readYears g c)).reverse.findSome? (colHit g row year) := by
  rw [rowValues, lookupD_dictFold]
  congr 1
  funext p
  cases hp : p.2 with
  | none => simp [colHit, hp]
  | some y =>
      by_cases hb : isNoneOrEmpty (cellAt g row p.1) = true
      · simp [colHit, hp, hb]
      · cases ht : tryFloat (cellAt g row p.1) with
        | none => simp [colHit, hp, hb, ht]
        | some x => simp [colHit, hp, hb, ht]

theorem read_table_lookup (g : Grid) (c : SheetConfig) (key : String) :
    lookupD (_read_table g c) key = (dataRows c).reverse.findSome? (rowHit g c key) := by
  rw [_read_table, lookupD_dictFold]
  congr 1
  funext row
  by_cases hb : isNoneOrEmpty (cellAt g row c.label_col) = true
  · simp [rowHit, hb]
  · by_cases hv : rowValues g c row = []
    · simp [rowHit, hb, hv]
    · by_cases hk : _normalize_label (cellStr (cellAt g row c.label_col)) = key <;>
        simp [rowHit, hb, hv, hk]

/-! ### Whitespace and normalization lemmas -/

theorem toLower_of_whitespace (c : Char) (h : c.isWhitespace = true) : c.toLower = c := by
  simp only [Char.isWhitespace, Bool.or_eq_true, decide_eq_true_eq] at h
  rcases h with ((h | h) | h) | h <;> subst h <;> decide

theorem wordsAux_eq_nil_of_whitespace (l : List Char)
    (h : ∀ ch ∈ l, ch.isWhitespace = true) : wordsAux l [] = [] := by
  induction l with
  | nil => rfl
  | cons c cs ih =>
      have hc := h c (List.mem_cons_self c cs)
      simp only [wordsAux, hc, if_true, if_pos rfl]
      exact ih (fun x hx => h x (List.mem_cons_of_mem _ hx))

theorem normalize_label_of_whitespace (w : String)
    (h : ∀ ch ∈ w.data, ch.isWhitespace = true) : _normalize_label w = "" := by
  rw [_normalize_label, pyWords, pyLower]
  have hws : ∀ ch ∈ w.data.map Char.toLower, ch.isWhitespace = true := by
    intro ch hch
    rcases List.mem_map.mp hch with ⟨c, hc, rfl⟩
    rw [toLower_of_whitespace c (h c hc)]
    exact h c hc
  rw [show (String.mk (w.data.map Char.toLower)).data = w.data.map Char.toLower from rfl]
  rw [wordsAux_eq_nil_of_whitespace _ hws]
  rfl

theorem strContains_nil_left (k : List Char) : strContains [] k = true := by
  cases k with
  | nil => rfl
  | cons h hs => simp [strContains, prefixAt]

/-! ### Sorting lemmas for the year set -/

theorem sortedCommonYears_mem (ik bk : List Int) (y : Int) :
    y ∈ sortedCommonYears ik bk ↔ y ∈ ik ∧ y ∈ bk := by
  rw [sortedCommonYears, List.mem_insertionSort, List.mem_dedup, List.mem_filter]
  simp

theorem sortedCommonYears_sorted (ik bk : List Int) :
    (sortedCommonYears ik bk).Sorted (· < ·) := by
  have hs : (sortedCommonYears ik bk).Sorted (· ≤ ·) :=
    List.sorted_insertionSort _ _
  have hn : (sortedCommonYears ik bk).Nodup := by
    rw [sortedCommonYears]
    exact ((List.perm_insertionSort _ _).nodup_iff).mpr (List.nodup_dedup _)
  exact (hs.and hn).imp (fun h => lt_of_le_of_ne h.1 h.2)

/-! ### Lemmas about `build_ratios` -/

theorem build_ratios_ok {wb : List (String × Grid)} {gI gB : Grid}
    (hI : lookupD wb "INCOME_STATEMENT" = some gI)
    (hB : lookupD wb "BALANCE_SHEET" = some gB)
    (hE : (lookupD wb "STOCKHOLDERS_EQUITY").isSome = true)
    (hC : (lookupD wb "CASH_FLOW").isSome = true)
    {iv : String × YearMap} {it : Table} {bv : String × YearMap} {bt : Table}
    (hi : _read_table gI incomeConfig = iv :: it)
    (hb : _read_table gB balanceConfig = bv :: bt) :
    build_ratios wb
      = Except.ok (keptSheets wb ++
          [("RATIOS",
            ratiosSheetOf (_read_table gI incomeConfig) (_read_table gB balanceConfig)
              (sortedCommonYears (keysD iv.2) (keysD bv.2)))]) := by
  obtain ⟨gE, hE'⟩ := Option.isSome_iff_exists.mp hE
  obtain ⟨gC, hC'⟩ := Option.isSome_iff_exists.mp hC
  rw [build_ratios, hI, hB, hE', hC']
  simp only [hi, hb, buildYears, keptSheets]

theorem build_ratios_ok_inv {wb : List (String × Grid)} {out : List (String × OutSheet)}
    (h : build_ratios wb = Except.ok out) :
    ∃ gI gB ys,
      lookupD wb "INCOME_STATEMENT" = some gI ∧
      lookupD wb "BALANCE_SHEET" = some gB ∧
      buildYears (_read_table gI incomeConfig) (_read_table gB balanceConfig) = some ys ∧
      out = keptSheets wb ++
        [("RATIOS",
          ratiosSheetOf (_read_table gI incomeConfig) (_read_table gB balanceConfig) ys)] := by
  rw [build_ratios] at h
  cases hI : lookupD wb "INCOME_STATEMENT" with
  | none => rw [hI] at h; cases h
  | some gI =>
  rw [hI] at h
  cases hB : lookupD wb "BALANCE_SHEET" with
  | none => rw [hB] at h; cases h
  | some gB =>
  rw [hB] at h
  cases hE : lookupD wb "STOCKHOLDERS_EQUITY" with
  | none => rw [hE] at h; cases h
  | some gE =>
  rw [hE] at h
  cases hC : lookupD wb "CASH_FLOW" with
  | none => rw [hC] at h; cases h
  | some gC =>
  rw [hC] at h
  cases hy : buildYears (_read_table gI incomeConfig) (_read_table gB balanceConfig) with
  | none => simp only [hy] at h; cases h
  | some ys =>
      simp only [hy] at h
      cases h
      exact ⟨gI, gB, ys, rfl, rfl, hy, rfl⟩

theorem lookupD_keptSheets_append (wb : List (String × Grid)) (rs : OutSheet) :
    lookupD (keptSheets wb ++ [("RATIOS", rs)]) "RATIOS" = some rs := by
  induction wb with
  | nil => simp [keptSheets, lookupD]
  | cons p t ih =>
      by_cases hp : p.1 = "RATIOS"
      · simpa [keptSheets, List.filter_cons, hp] using ih
      · simpa [keptSheets, List.filter_cons, hp, lookupD] using ih

theorem filter_keptSheets_append (wb : List (String × Grid)) (rs : OutSheet) :
    (keptSheets wb ++ [("RATIOS", rs)]).filter (fun p => p.1 = "RATIOS")
      = [("RATIOS", rs)] := by
  induction wb with
  | nil => simp [keptSheets]
  | cons p t ih =>
      by_cases hp : p.1 = "RATIOS"
      · simpa [keptSheets, List.filter_cons, hp] using ih
      · simpa [keptSheets, List.filter_cons, hp] using ih

/-! ### Claim theorems -/

/-- C1, counterexample: the claim says `_safe_divide` never produces infinity
or NaN, for every optional numerator and denominator.  But an infinite
numerator passes the guard and divides to infinity, and a NaN denominator
compares unequal to 0 (so the guard does not catch it) and divides to NaN —
exactly as Python evaluates `float("inf") / 1.0` and `1.0 / float("nan")`. -/
theorem c1_guarded_division_cex :
    _safe_divide (some PyFloat.inf) (some (PyFloat.finite 1)) = some PyFloat.inf ∧
    _safe_divide (some (PyFloat.finite 1)) (some PyFloat.nan) = some PyFloat.nan := by
  exact ⟨by decide, by decide⟩

/-- C1, amended: `_safe_divide(n, d)` returns unknown (`None`) when `n` is
unknown, `d` is unknown, or `d` compares equal to zero; otherwise it returns
the float quotient `n / d` — so it never raises.  For finite operands the
quotient is finite (exact arithmetic); infinity or NaN can appear in the
result only when an operand is itself non-finite, since a NaN divisor is not
caught by the zero guard. -/
theorem c1_guarded_division (n d : Option PyFloat) :
    _safe_divide none d = none ∧
    _safe_divide n none = none ∧
    _safe_divide n (some (PyFloat.finite 0)) = none ∧
    (∀ a b : PyFloat, pfEqZero b = false → _safe_divide (some a) (some b) = some (pfDiv a b)) ∧
    (∀ p q : ℚ, q ≠ 0 →
      _safe_divide (some (PyFloat.finite p)) (some (PyFloat.finite q))
        = some (PyFloat.finite (p / q))) := by
  refine ⟨by cases d <;> rfl, by cases n <;> rfl, ?_, ?_, ?_⟩
  · cases n <;> simp [_safe_divide, pfEqZero]
  · intro a b hb
    simp [_safe_divide, hb]
  · intro p q hq
    simp [_safe_divide, pfEqZero, pfDiv, hq]

/-- C1, witness for the amended theorem: 10 / 4 = 5/2 through the guard. -/
theorem c1_guarded_division_witness :
    _safe_divide (some (PyFloat.finite 10)) (some (PyFloat.finite 4))
      = some (PyFloat.finite (5 / 2)) := by
  have h :=
    (c1_guarded_division (some (PyFloat.finite 10)) (some (PyFloat.finite 4))).2.2.2.2
      10 4 (by norm_num)
  rw [h]
  norm_num

/-- C2: the cash-conversion-cycle fallback.  CCC is unknown when DSO or DPO
is unknown; with both known it is DSO + DIO − DPO when DIO is known and
DSO − DPO when DIO is unknown; the per-year pipeline value is exactly this
combination of the per-year DSO/DIO/DPO intermediates; and in particular
DSO=10, DIO=unknown, DPO=4 gives 6 while DSO=10, DIO=5, DPO=4 gives 11. -/
theorem c2_ccc_fallback (a b c : PyFloat) (odio : Option PyFloat) (i bl : Table) (y : Int) :
    cccOf (some a) (some b) (some c) = some (pfSub (pfAdd a b) c) ∧
    cccOf (some a) none (some c) = some (pfSub a c) ∧
    cccOf none odio (some c) = none ∧
    cccOf (some a) odio none = none ∧
    cccYr i bl y = cccOf (dsoYr i bl y) (dioYr i bl y) (dpoYr i bl y) ∧
    ratioValue i bl y "Cash Conversion Cycle" = cccYr i bl y ∧
    cccOf (some (PyFloat.finite 10)) none (some (PyFloat.finite 4))
      = some (PyFloat.finite 6) ∧
    cccOf (some (PyFloat.finite 10)) (some (PyFloat.finite 5)) (some (PyFloat.finite 4))
      = some (PyFloat.finite 11) := by
  refine ⟨rfl, rfl, ?_, ?_, rfl, ?_, ?_, ?_⟩
  · cases odio <;> rfl
  · cases odio <;> rfl
  · rfl
  · norm_num [cccOf, pfSub, pfNeg, pfAdd]
  · norm_num [cccOf, pfSub, pfNeg, pfAdd]

/-- C9: `_average` is the float arithmetic mean when both inputs are known
(`(p + q) / 2` exactly, for finite inputs), and unknown when either input is
unknown, with no one-sided averaging; in particular average(5, unknown) is
unknown and average(4, 6) = 5. -/
theorem c9_average (p q : ℚ) (x : Option PyFloat) :
    _average (some (PyFloat.finite p)) (some (PyFloat.finite q))
      = some (PyFloat.finite ((p + q) / 2)) ∧
    _average none x = none ∧
    _average x none = none ∧
    (∀ a b : PyFloat, _average (some a) (some b) = some (pfDiv (pfAdd a b) (PyFloat.finite 2))) ∧
    _average (some (PyFloat.finite 5)) none = none ∧
    _average (some (PyFloat.finite 4)) (some (PyFloat.finite 6)) = some (PyFloat.finite 5) := by
  refine ⟨rfl, by cases x <;> rfl, by cases x <;> rfl, fun a b => rfl, rfl, ?_⟩
  norm_num [_average, pfAdd, pfDiv]

/-- C3: the two-phase label-resolution policy of `_find_value`.  An exact
normalized match (first phase) is always preferred: whenever the exact phase
yields a value, that is the result, regardless of substring matches.  The
exact phase scans variants in order, taking the first whose normalized form
is a table key with the year present.  Only when the exact phase yields
nothing does the result come from the substring phase, which scans table
keys in insertion order, taking the first key containing some normalized
variant with the year present.  When neither phase matches, the result is
`None` (no error is possible: the function is total). -/
theorem c3_find_value_two_phase (t : Table) (vs : List String) (y : Int) :
    (∀ x, exactPhase t vs y = some x → _find_value t vs y = some x) ∧
    (exactPhase t vs y = none → _find_value t vs y = substrPhase t vs y) ∧
    (∀ v vs' x, tableLookup t (_normalize_label v) y = some x →
      exactPhase t (v :: vs') y = some x) ∧
    (∀ v vs', tableLookup t (_normalize_label v) y = none →
      exactPhase t (v :: vs') y = exactPhase t vs' y) ∧
    (∀ k vals t' x, (∃ v ∈ vs, strContains (_normalize_label v).data k.data = true) →
      lookupD vals y = some x →
      substrPhase ((k, vals) :: t') vs y = some x) ∧
    (∀ k vals t', lookupD vals y = none →
      substrPhase ((k, vals) :: t') vs y = substrPhase t' vs y) ∧
    (∀ k vals t', (∀ v ∈ vs, strContains (_normalize_label v).data k.data = false) →
      substrPhase ((k, vals) :: t') vs y = substrPhase t' vs y) ∧
    (exactPhase t vs y = none → substrPhase t vs y = none → _find_value t vs y = none) := by
  refine ⟨?_, ?_, ?_, ?_, ?_, ?_, ?_, ?_⟩
  · intro x h; simp [_find_value, h]
  · intro h; simp [_find_value, h]
  · intro v vs' x h; simp [exactPhase, List.findSome?_cons, h]
  · intro v vs' h; simp [exactPhase, List.findSome?_cons, h]
  · intro k vals t' x hex hy
    rw [substrPhase, List.findSome?_cons]
    have hinner :
        vs.findSome? (fun variant =>
          if strContains (_normalize_label variant).data k.data then lookupD vals y
          else none) = some x := by
      apply findSome?_eq_some_of_forall
      · intro v hv
        by_cases hc : strContains (_normalize_label v).data k.data
        · right; simp [hc, hy]
        · left; simp [hc]
      · rcases hex with ⟨v, hv, hc⟩
        exact ⟨v, hv, by simp [hc, hy]⟩
    rw [hinner]
  · intro k vals t' hy
    rw [substrPhase, List.findSome?_cons]
    have hinner :
        vs.findSome? (fun variant =>
          if strContains (_normalize_label variant).data k.data then lookupD vals y
          else none) = none := by
      rw [List.findSome?_eq_none_iff]
      intro v hv
      by_cases hc : strContains (_normalize_label v).data k.data <;> simp [hc, hy]
    rw [hinner]
    rfl
  · intro k vals t' hall
    rw [substrPhase, List.findSome?_cons]
    have hinner :
        vs.findSome? (fun variant =>
          if strContains (_normalize_label variant).data k.data then lookupD vals y
          else none) = none := by
      rw [List.findSome?_eq_none_iff]
      intro v hv
      simp [hall v hv]
    rw [hinner]
    rfl
  · intro h1 h2; simp [_find_value, h1, h2]

/-- C3, witness: in a table with keys "revenue" and "total assets x", the
variant "Revenue" resolves by exact match and the variant "assets" resolves
by substring fallback. -/
theorem c3_find_value_two_phase_witness :
    _find_value exTable ["Revenue"] 2020 = some (PyFloat.finite 100) ∧
    _find_value exTable ["assets"] 2020 = some (PyFloat.finite 50) := by
  constructor
  · exact (c3_find_value_two_phase exTable ["Revenue"] 2020).1 (PyFloat.finite 100) (by rfl)
  · exact ((c3_find_value_two_phase exTable ["assets"] 2020).2.1 (by rfl)).trans (by rfl)

/-- C10: a nonempty whitespace-only label does not count as blank (only
`None` and `""` do), so the row is processed; its label normalizes to the
empty string, so all such rows collide on the single key `""` (the table
stores them under it); and the empty normalized variant is a substring of
every key, so it matches trivially in the substring fallback. -/
theorem c10_whitespace_labels (w : String) (g : Grid) (c : SheetConfig) (r : Nat)
    (hne : w ≠ "") (hws : ∀ ch ∈ w.data, ch.isWhitespace = true) :
    isNoneOrEmpty (Cell.str w) = false ∧
    _normalize_label w = "" ∧
    (∀ k : String, strContains (_normalize_label w).data k.data = true) ∧
    (r ∈ dataRows c → cellAt g r c.label_col = Cell.str w → rowValues g c r ≠ [] →
      lookupD (_read_table g c) "" ≠ none) := by
  have hnorm : _normalize_label w = "" := normalize_label_of_whitespace w hws
  refine ⟨?_, hnorm, ?_, ?_⟩
  · simp only [isNoneOrEmpty, beq_eq_false_iff_ne, ne_eq]
    exact hne
  · intro k
    rw [hnorm]
    exact strContains_nil_left k.data
  · intro hr hcell hvals hnone
    rw [read_table_lookup, List.findSome?_eq_none_iff] at hnone
    have hrow := hnone r (List.mem_reverse.mpr hr)
    rw [rowHit, hcell] at hrow
    simp only [isNoneOrEmpty, cellStr] at hrow
    rw [if_neg (by simp [hne])] at hrow
    rw [if_neg hvals] at hrow
    rw [if_pos hnorm] at hrow
    cases hrow

/-- C10, witness: the single-space label " " is processed, normalizes to the
empty string, and its row is stored under the key `""`. -/
theorem c10_whitespace_labels_witness :
    _normalize_label " " = "" ∧
    lookupD (_read_table wsLabelGrid smallConfig) "" ≠ none := by
  have h := c10_whitespace_labels " " wsLabelGrid smallConfig 2 (by decide) (by decide)
  exact ⟨h.2.1, h.2.2.2 (by decide) rfl (by decide)⟩

/-- C4, counterexample: the claim quantifies over every grid, but under a
label collision it fails.  Row 2 has label "a" with a blank data cell for
year 2020, yet the extracted table does contain an entry for ("a", 2020),
supplied by the colliding row 3. -/
theorem c4_omission_cex :
    cellAt collideGrid 2 1 = Cell.str "a" ∧
    isNoneOrEmpty (cellAt collideGrid 2 2) = true ∧
    2 ∈ dataRows smallConfig ∧
    (2, some 2020) ∈ smallConfig.year_cols.zip (readYears collideGrid smallConfig) ∧
    tableLookup (_read_table collideGrid smallConfig) "a" 2020
      = some (PyFloat.finite 5) := by
  exact ⟨rfl, rfl, by decide, by decide, by decide⟩

/-- C4, amended: for a data row whose normalized label is borne by no other
processed data row (no collision), the claim holds as stated: if every data
cell of that row for a given year is blank or fails numeric coercion, the
extracted table has no entry for that (label, year) pair — in particular no
zero is inserted — and if every year cell of the row is skipped, the label
does not appear in the table at all. -/
theorem c4_omission (g : Grid) (c : SheetConfig) (r : Nat) (key : String)
    (hr : r ∈ dataRows c)
    (hb : isNoneOrEmpty (cellAt g r c.label_col) = false)
    (hk : _normalize_label (cellStr (cellAt g r c.label_col)) = key)
    (huniq : ∀ r' ∈ dataRows c, r' ≠ r →
      isNoneOrEmpty (cellAt g r' c.label_col) = false →
      _normalize_label (cellStr (cellAt g r' c.label_col)) ≠ key) :
    (∀ year : Int,
      (∀ p ∈ c.year_cols.zip (readYears g c), p.2 = some year →
        isNoneOrEmpty (cellAt g r p.1) = true ∨ tryFloat (cellAt g r p.1) = none) →
      tableLookup (_read_table g c) key year = none) ∧
    ((∀ p ∈ c.year_cols.zip (readYears g c), p.2 ≠ none →
        isNoneOrEmpty (cellAt g r p.1) = true ∨ tryFloat (cellAt g r p.1) = none) →
      lookupD (_read_table g c) key = none) := by
  have hmain : lookupD (_read_table g c) key = rowHit g c key r := by
    rw [read_table_lookup]
    apply findSome?_eq_of_unique _ _ r (List.mem_reverse.mpr hr)
    intro a ha hne
    have ha' := List.mem_reverse.mp ha
    by_cases hba : isNoneOrEmpty (cellAt g a c.label_col) = true
    · simp [rowHit, hba]
    · have hba' : isNoneOrEmpty (cellAt g a c.label_col) = false := by
        simpa using hba
      have hk' := huniq a ha' hne hba'
      by_cases hva : rowValues g c a = []
      · simp [rowHit, hba', hva]
      · simp [rowHit, hba', hva, hk']
  constructor
  · intro year hskip
    by_cases hvals : rowValues g c r = []
    · rw [tableLookup, hmain]
      simp [rowHit, hb, hvals]
    · have hlook : lookupD (rowValues g c r) year = none := by
        rw [rowValues_lookup, List.findSome?_eq_none_iff]
        intro p hp
        have hp' := List.mem_reverse.mp hp
        rw [colHit]
        cases hp2 : p.2 with
        | none => rfl
        | some yy =>
            by_cases hyy : yy = year
            · subst hyy
              rcases hskip p hp' hp2 with hc | hc
              · simp [hc]
              · simp [hc]
            · by_cases hbc : isNoneOrEmpty (cellAt g r p.1) = true
              · simp [hbc]
              · cases htf : tryFloat (cellAt g r p.1) with
                | none => simp [hbc, htf]
                | some x => simp [hbc, htf, hyy]
      rw [tableLookup, hmain]
      simp only [rowHit, hb, Bool.false_eq_true, if_false, if_neg hvals, if_pos hk]
      exact hlook
  · intro hskip
    have hvals : rowValues g c r = [] := by
      rw [rowValues]
      apply dictFold_eq_nil
      intro p hp
      cases hp2 : p.2 with
      | none => rfl
      | some yy =>
          rcases hskip p hp (by rw [hp2]; exact Option.some_ne_none yy) with hc | hc
          · simp [hp2, hc]
          · simp [hp2, hc]
    rw [hmain]
    simp [rowHit, hb, hvals]

/-- C4, witness: with a single row labelled "a" whose only data cell is
blank, the table has no ("a", 2020) entry and no "a" key at all. -/
theorem c4_omission_witness :
    tableLookup (_read_table blankCellGrid smallConfig) "a" 2020 = none ∧
    lookupD (_read_table blankCellGrid smallConfig) "a" = none := by
  have h := c4_omission blankCellGrid smallConfig 2 "a" (by decide) rfl (by decide)
    (by decide)
  exact ⟨h.1 2020 (by decide), h.2 (by decide)⟩

/-- C5, counterexample: a string cell spelling "inf" passes `float()`
coercion, so the extracted table stores a non-finite value — the
every-value-is-finite invariant fails. -/
theorem c5_table_finiteness_cex :
    tableLookup (_read_table infGrid smallConfig) "a" 2020 = some PyFloat.inf := by
  decide

/-- C5, amended: every value stored in an extracted table is the successful
`float()` coercion of a non-blank data cell of the grid, under a
numeric-header year column — so blank, empty and coercion-failing cells
never contribute (in particular no zero is inserted for them), and a value
coming from a numeric cell is that cell's finite number.  Non-finite values
can enter only through string cells spelling an infinity or NaN. -/
theorem c5_table_values_provenance (g : Grid) (c : SheetConfig) (key : String)
    (year : Int) (v : PyFloat)
    (h : tableLookup (_read_table g c) key year = some v) :
    ∃ r ∈ dataRows c, ∃ p ∈ c.year_cols.zip (readYears g c),
      p.2 = some year ∧
      isNoneOrEmpty (cellAt g r p.1) = false ∧
      tryFloat (cellAt g r p.1) = some v ∧
      (∀ q : ℚ, cellAt g r p.1 = Cell.num q → v = PyFloat.finite q) := by
  rw [tableLookup] at h
  cases hl : lookupD (_read_table g c) key with
  | none => rw [hl] at h; cases h
  | some vals =>
  rw [hl] at h
  rw [read_table_lookup] at hl
  obtain ⟨r, hrmem, hrh⟩ := List.exists_of_findSome?_eq_some hl
  have hr : r ∈ dataRows c := List.mem_reverse.mp hrmem
  have hvals : vals = rowValues g c r := by
    rw [rowHit] at hrh
    by_cases hba : isNoneOrEmpty (cellAt g r c.label_col) = true
    · rw [if_pos hba] at hrh; cases hrh
    · rw [if_neg hba] at hrh
      by_cases hva : rowValues g c r = []
      · rw [if_pos hva] at hrh; cases hrh
      · rw [if_neg hva] at hrh
        by_cases hkk : _normalize_label (cellStr (cellAt g r c.label_col)) = key
        · rw [if_pos hkk] at hrh
          exact (Option.some.injEq _ _ ▸ hrh).symm
        · rw [if_neg hkk] at hrh; cases hrh
  have h' : lookupD vals year = some v := h
  rw [hvals, rowValues_lookup] at h'
  obtain ⟨p, hpmem, hph⟩ := List.exists_of_findSome?_eq_some h'
  have hp : p ∈ c.year_cols.zip (readYears g c) := List.mem_reverse.mp hpmem
  refine ⟨r, hr, p, hp, ?_⟩
  rw [colHit] at hph
  cases hp2 : p.2 with
  | none => rw [hp2] at hph; cases hph
  | some yy =>
  rw [hp2] at hph
  have hph' :
      (if isNoneOrEmpty (cellAt g r p.1) = true then none
       else
         match tryFloat (cellAt g r p.1) with
         | some x => if yy = year then some x else none
         | none => none) = some v := hph
  by_cases hbc : isNoneOrEmpty (cellAt g r p.1) = true
  · rw [if_pos hbc] at hph'; cases hph'
  · rw [if_neg hbc] at hph'
    cases htf : tryFloat (cellAt g r p.1) with
    | none => rw [htf] at hph'; cases hph'
    | some x =>
        rw [htf] at hph'
        have hph2 : (if yy = year then some x else none) = some v := hph'
        by_cases hyy : yy = year
        · rw [if_pos hyy] at hph2
          have hxv : x = v := Option.some.inj hph2
          subst hxv
          subst hyy
          refine ⟨rfl, by simpa using hbc, rfl, ?_⟩
          intro q hq
          rw [hq] at htf
          have hfq : some (PyFloat.finite q) = some x := htf
          exact (Option.some.inj hfq).symm
        · rw [if_neg hyy] at hph2; cases hph2

/-- C5, witness: the stored value 5 for ("a", 2020) traces back to the
numeric cell holding 5. -/
theorem c5_table_values_provenance_witness :
    ∃ r ∈ dataRows smallConfig,
      ∃ p ∈ smallConfig.year_cols.zip (readYears plainGrid smallConfig),
        p.2 = some 2020 ∧
        isNoneOrEmpty (cellAt plainGrid r p.1) = false ∧
        tryFloat (cellAt plainGrid r p.1) = some (PyFloat.finite 5) ∧
        (∀ q : ℚ, cellAt plainGrid r p.1 = Cell.num q →
          PyFloat.finite 5 = PyFloat.finite q) :=
  c5_table_values_provenance plainGrid smallConfig "a" 2020 (PyFloat.finite 5) (by decide)

/-- C6: with the four sheets present and both extracted tables nonempty, the
run succeeds and its RATIOS header is exactly the sorted intersection of the
year keys of the income table's first row-series with those of the balance
table's first row-series: a year is in the header iff it is in both key
sets, the header is strictly ascending, and every ratio row carries exactly
one value slot per header year (so no ratio value is produced for a year
absent from either source). -/
theorem c6_year_set (wb : List (String × Grid)) (gI gB : Grid)
    (iv bv : String × YearMap) (it bt : Table)
    (hI : lookupD wb "INCOME_STATEMENT" = some gI)
    (hB : lookupD wb "BALANCE_SHEET" = some gB)
    (hE : (lookupD wb "STOCKHOLDERS_EQUITY").isSome = true)
    (hC : (lookupD wb "CASH_FLOW").isSome = true)
    (hi : _read_table gI incomeConfig = iv :: it)
    (hb : _read_table gB balanceConfig = bv :: bt) :
    ∃ rows,
      build_ratios wb = Except.ok (keptSheets wb ++
        [("RATIOS", OutSheet.ratios (sortedCommonYears (keysD iv.2) (keysD bv.2)) rows)]) ∧
      (∀ y : Int, y ∈ sortedCommonYears (keysD iv.2) (keysD bv.2) ↔
        y ∈ keysD iv.2 ∧ y ∈ keysD bv.2) ∧
      (sortedCommonYears (keysD iv.2) (keysD bv.2)).Sorted (· < ·) ∧
      (∀ nm vs, (nm, vs) ∈ rows →
        vs = (sortedCommonYears (keysD iv.2) (keysD bv.2)).map
          (fun y => ratioValue (_read_table gI incomeConfig) (_read_table gB balanceConfig) y nm) ∧
        vs.length = (sortedCommonYears (keysD iv.2) (keysD bv.2)).length) := by
  have hok := build_ratios_ok hI hB hE hC hi hb
  refine ⟨ratioNames.map (fun nm =>
      (nm, (sortedCommonYears (keysD iv.2) (keysD bv.2)).map
        (fun y => ratioValue (_read_table gI incomeConfig) (_read_table gB balanceConfig) y nm))),
    hok, fun y => sortedCommonYears_mem _ _ y, sortedCommonYears_sorted _ _, ?_⟩
  intro nm vs hmem
  obtain ⟨nm', _, heq⟩ := List.mem_map.mp hmem
  obtain ⟨h1, h2⟩ := Prod.mk.injEq .. ▸ heq
  subst h1
  constructor
  · exact h2.symm
  · rw [← h2, List.length_map]

/-- C6, witness: on a concrete workbook whose income years are 2020-2022 and
balance years are 2020-2021, the run succeeds with header exactly
[2020, 2021]. -/
theorem c6_year_set_witness :
    ∃ rows, build_ratios wbOk = Except.ok (keptSheets wbOk ++
      [("RATIOS", OutSheet.ratios [2020, 2021] rows)]) := by
  obtain ⟨rows, h1, _, _, _⟩ :=
    c6_year_set wbOk wgIncome wgBalance
      ("revenue", [(2020, PyFloat.finite 100), (2021, PyFloat.finite 120)])
      ("total assets", [(2020, PyFloat.finite 50), (2021, PyFloat.finite 55)])
      [] [] rfl rfl rfl rfl (by decide) (by decide)
  have hy : sortedCommonYears
      (keysD [(2020, PyFloat.finite 100), (2021, PyFloat.finite 120)])
      (keysD [(2020, PyFloat.finite 50), (2021, PyFloat.finite 55)]) = [2020, 2021] := by
    decide
  rw [hy] at h1
  exact ⟨rows, h1⟩

/-- C7, counterexample: a workbook that does contain all four required named
sheets but whose grids are empty makes `build_ratios` raise `StopIteration`
(from `next(iter(income.values()))` on the empty extracted table), so a
missing named table is not the sole fatal condition. -/
theorem c7_total_cex :
    (lookupD wbEmpty4 "INCOME_STATEMENT").isSome = true ∧
    (lookupD wbEmpty4 "BALANCE_SHEET").isSome = true ∧
    (lookupD wbEmpty4 "STOCKHOLDERS_EQUITY").isSome = true ∧
    (lookupD wbEmpty4 "CASH_FLOW").isSome = true ∧
    build_ratios wbEmpty4 = Except.error BuildError.stopIteration := by
  exact ⟨rfl, rfl, rfl, rfl, rfl⟩

/-- C7, amended: with all four required named sheets present and the
extracted income and balance tables each nonempty, `build_ratios` completes
without raising (value-level absences degrade to unknown results inside the
total ratio computations); an all-blank income or balance sheet instead
raises `StopIteration` when the year set is derived. -/
theorem c7_total (wb : List (String × Grid)) (gI gB : Grid)
    (hI : lookupD wb "INCOME_STATEMENT" = some gI)
    (hB : lookupD wb "BALANCE_SHEET" = some gB)
    (hE : (lookupD wb "STOCKHOLDERS_EQUITY").isSome = true)
    (hC : (lookupD wb "CASH_FLOW").isSome = true)
    (hi : _read_table gI incomeConfig ≠ [])
    (hb : _read_table gB balanceConfig ≠ []) :
    ∃ out, build_ratios wb = Except.ok out := by
  cases hi' : _read_table gI incomeConfig with
  | nil => exact absurd hi' hi
  | cons iv it =>
      cases hb' : _read_table gB balanceConfig with
      | nil => exact absurd hb' hb
      | cons bv bt =>
          exact ⟨_, build_ratios_ok hI hB hE hC hi' hb'⟩

/-- C7, witness: the concrete workbook with nonempty income and balance
sheets runs to completion. -/
theorem c7_total_witness : ∃ out, build_ratios wbOk = Except.ok out :=
  c7_total wbOk wgIncome wgBalance rfl rfl rfl rfl (by decide) (by decide)

/-- C8: full replacement of the RATIOS sheet.  Two input workbooks agreeing
on the four source sheets produce the same RATIOS sheet — in particular any
pre-existing RATIOS sheet (stale years, previous output) has no influence —
and the output contains exactly one sheet named RATIOS, which is the freshly
rendered ratios sheet, never a retained source grid. -/
theorem c8_full_replacement (wb₁ wb₂ : List (String × Grid))
    (o₁ o₂ : List (String × OutSheet))
    (hagree : ∀ nm ∈ ["INCOME_STATEMENT", "BALANCE_SHEET",
      "STOCKHOLDERS_EQUITY", "CASH_FLOW"], lookupD wb₁ nm = lookupD wb₂ nm)
    (h₁ : build_ratios wb₁ = Except.ok o₁)
    (h₂ : build_ratios wb₂ = Except.ok o₂) :
    lookupD o₁ "RATIOS" = lookupD o₂ "RATIOS" ∧
    (∃ rs, lookupD o₁ "RATIOS" = some rs ∧
      o₁.filter (fun p => p.1 = "RATIOS") = [("RATIOS", rs)] ∧
      ∀ g' : Grid, rs ≠ OutSheet.src g') := by
  obtain ⟨gI₁, gB₁, ys₁, hI₁, hB₁, hy₁, ho₁⟩ := build_ratios_ok_inv h₁
  obtain ⟨gI₂, gB₂, ys₂, hI₂, hB₂, hy₂, ho₂⟩ := build_ratios_ok_inv h₂
  have hgI : gI₁ = gI₂ := by
    have h := hagree "INCOME_STATEMENT" (by simp)
    rw [hI₁, hI₂] at h
    exact Option.some.inj h
  have hgB : gB₁ = gB₂ := by
    have h := hagree "BALANCE_SHEET" (by simp)
    rw [hB₁, hB₂] at h
    exact Option.some.inj h
  subst hgI
  subst hgB
  have hys : ys₁ = ys₂ := by
    rw [hy₁] at hy₂
    exact Option.some.inj hy₂
  subst hys
  refine ⟨?_, ?_⟩
  · rw [ho₁, ho₂, lookupD_keptSheets_append, lookupD_keptSheets_append]
  · refine ⟨ratiosSheetOf (_read_table gI₁ incomeConfig) (_read_table gB₁ balanceConfig) ys₁,
      ?_, ?_, ?_⟩
    · rw [ho₁, lookupD_keptSheets_append]
    · rw [ho₁, filter_keptSheets_append]
    · intro g' hcontra
      simp [ratiosSheetOf] at hcontra

/-- C8, witness: re-running on a workbook that already carries a stale
RATIOS sheet yields the same RATIOS sheet as running on the clean one. -/
theorem c8_full_replacement_witness :
    lookupD (outOfWb wbStale) "RATIOS" = lookupD (outOfWb wbOk) "RATIOS" :=
  (c8_full_replacement wbStale wbOk (outOfWb wbStale) (outOfWb wbOk)
    (by decide) rfl rfl).1

end RatioCalc
